import Mathlib

/-!
Verification of the OpenAlchemy schema-validation core against its
natural-language specification.  The Python source is embedded shallowly:
JSON documents become the `Json` inductive type, Python dictionaries become
association lists (`List (String × Json)`) whose order is insertion order,
raised exceptions become `Except` errors, and the `Result` named tuple of the
validation package becomes the `Result` structure.
-/

namespace OA

/-- A JSON-compatible value: the data universe of OpenAPI schema documents. -/
inductive Json where
  | null : Json
  | bool : Bool → Json
  | int : Int → Json
  | str : String → Json
  | arr : List Json → Json
  | obj : List (String × Json) → Json

mutual

/-- Decidable equality of JSON values, by mutual structural recursion. -/
def decEqJson : (a b : Json) → Decidable (a = b)
  | .null, .null => isTrue rfl
  | .null, .bool _ => isFalse (fun h => nomatch h)
  | .null, .int _ => isFalse (fun h => nomatch h)
  | .null, .str _ => isFalse (fun h => nomatch h)
  | .null, .arr _ => isFalse (fun h => nomatch h)
  | .null, .obj _ => isFalse (fun h => nomatch h)
  | .bool _, .null => isFalse (fun h => nomatch h)
  | .bool x, .bool y =>
    match decEq x y with
    | isTrue h => isTrue (by rw [h])
    | isFalse h => isFalse (fun hc => h (Json.bool.inj hc))
  | .bool _, .int _ => isFalse (fun h => nomatch h)
  | .bool _, .str _ => isFalse (fun h => nomatch h)
  | .bool _, .arr _ => isFalse (fun h => nomatch h)
  | .bool _, .obj _ => isFalse (fun h => nomatch h)
  | .int _, .null => isFalse (fun h => nomatch h)
  | .int _, .bool _ => isFalse (fun h => nomatch h)
  | .int x, .int y =>
    match decEq x y with
    | isTrue h => isTrue (by rw [h])
    | isFalse h => isFalse (fun hc => h (Json.int.inj hc))
  | .int _, .str _ => isFalse (fun h => nomatch h)
  | .int _, .arr _ => isFalse (fun h => nomatch h)
  | .int _, .obj _ => isFalse (fun h => nomatch h)
  | .str _, .null => isFalse (fun h => nomatch h)
  | .str _, .bool _ => isFalse (fun h => nomatch h)
  | .str _, .int _ => isFalse (fun h => nomatch h)
  | .str x, .str y =>
    match decEq x y with
    | isTrue h => isTrue (by rw [h])
    | isFalse h => isFalse (fun hc => h (Json.str.inj hc))
  | .str _, .arr _ => isFalse (fun h => nomatch h)
  | .str _, .obj _ => isFalse (fun h => nomatch h)
  | .arr _, .null => isFalse (fun h => nomatch h)
  | .arr _, .bool _ => isFalse (fun h => nomatch h)
  | .arr _, .int _ => isFalse (fun h => nomatch h)
  | .arr _, .str _ => isFalse (fun h => nomatch h)
  | .arr xs, .arr ys =>
    match decEqJsonList xs ys with
    | isTrue h => isTrue (by rw [h])
    | isFalse h => isFalse (fun hc => h (Json.arr.inj hc))
  | .arr _, .obj _ => isFalse (fun h => nomatch h)
  | .obj _, .null => isFalse (fun h => nomatch h)
  | .obj _, .bool _ => isFalse (fun h => nomatch h)
  | .obj _, .int _ => isFalse (fun h => nomatch h)
  | .obj _, .str _ => isFalse (fun h => nomatch h)
  | .obj _, .arr _ => isFalse (fun h => nomatch h)
  | .obj xs, .obj ys =>
    match decEqJsonObj xs ys with
    | isTrue h => isTrue (by rw [h])
    | isFalse h => isFalse (fun hc => h (Json.obj.inj hc))

/-- Decidable equality of JSON arrays. -/
def decEqJsonList : (xs ys : List Json) → Decidable (xs = ys)
  | [], [] => isTrue rfl
  | [], _ :: _ => isFalse (fun h => nomatch h)
  | _ :: _, [] => isFalse (fun h => nomatch h)
  | x :: xs, y :: ys =>
    match decEqJson x y with
    | isTrue h1 =>
      match decEqJsonList xs ys with
      | isTrue h2 => isTrue (by rw [h1, h2])
      | isFalse h2 => isFalse (fun hc => h2 (List.cons.inj hc).2
      )
    | isFalse h1 => isFalse (fun hc => h1 (List.cons.inj hc).1)

/-- Decidable equality of JSON objects. -/
def decEqJsonObj : (xs ys : List (String × Json)) → Decidable (xs = ys)
  | [], [] => isTrue rfl
  | [], _ :: _ => isFalse (fun h => nomatch h)
  | _ :: _, [] => isFalse (fun h => nomatch h)
  | (k1, v1) :: xs, (k2, v2) :: ys =>
    match decEq k1 k2 with
    | isTrue hk =>
      match decEqJson v1 v2 with
      | isTrue hv =>
        match decEqJsonObj xs ys with
        | isTrue ht => isTrue (by rw [hk, hv, ht])
        | isFalse ht => isFalse (fun hc => ht (List.cons.inj hc).2)
      | isFalse hv =>
        isFalse (fun hc => hv (congrArg Prod.snd (List.cons.inj hc).1))
    | isFalse hk =>
      isFalse (fun hc => hk (congrArg Prod.fst (List.cons.inj hc).1))

end

instance : DecidableEq Json := decEqJson

/-- A collection of named schemas (Python: mapping schema name to schema). -/
abbrev Schemas := List (String × Json)

/-- Dictionary lookup on an association list, modelling Python `dict.get`:
the first binding of the key wins (keys of a Python dict are unique). -/
def lookupKey (k : String) : List (String × Json) → Option Json
  | [] => none
  | (k', v) :: rest => if k = k' then some v else lookupKey k rest

/-- Read a key directly off a schema object, without following references. -/
def localKey (s : Json) (key : String) : Option Json :=
  match s with
  | .obj fields => lookupKey key fields
  | _ => none

/-- Extract the schema name from an OpenAPI reference string of the form
"#/components/schemas/Name" (21 characters of prefix before the name). -/
def refName (r : String) : Option String :=
  if r.data.take 21 = "#/components/schemas/".data then
    some (String.mk (r.data.drop 21))
  else none

/-- Modelled from the spec: the peek helper of `open_alchemy.helpers.peek` is
not under src.  Resolve a named key's effective value for a schema, following
`$ref` into the schema collection and searching `allOf` members in order,
first match wins (spec section 4.2).  The worklist realises the depth-first
search order: a schema's own key, then its `$ref` target, then its `allOf`
members in sequence.  Fuel bounds reference chains; cyclic references exhaust
the fuel and yield `none`. -/
def peekF (schemas : Schemas) (key : String) : Nat → List Json → Option Json
  | 0, _ => none
  | _ + 1, [] => none
  | fuel + 1, s :: rest =>
    match s with
    | .obj fields =>
      match lookupKey key fields with
      | some v => some v
      | none =>
        let viaRef : List Json :=
          match lookupKey "$ref" fields with
          | some (.str r) =>
            match refName r with
            | some n =>
              match lookupKey n schemas with
              | some target => [target]
              | none => []
            | none => []
          | _ => []
        let viaAllOf : List Json :=
          match lookupKey "allOf" fields with
          | some (.arr members) => members
          | _ => []
        peekF schemas key fuel (viaRef ++ viaAllOf ++ rest)
    | _ => peekF schemas key fuel rest

/-- Fuel that is ample for every schema collection appearing in this
development; universal theorems never unfold it. -/
def peekFuel (schemas : Schemas) : Nat := 4 * schemas.length + 32

/-- Resolve a key's effective value for a schema through `$ref`/`allOf`. -/
def peekValue (schemas : Schemas) (s : Json) (key : String) : Option Json :=
  peekF schemas key (peekFuel schemas) [s]

/-- Modelled from the spec: the prefer-local peek variant (spec section 4.2)
checks the schema's own keys first and only then follows `$ref`/`allOf`. -/
def preferLocal (schemas : Schemas) (s : Json) (key : String) : Option Json :=
  match localKey s key with
  | some v => some v
  | none => peekValue schemas s key

/-- The effective `x-tablename` of a schema via the prefer-local peek.
A missing or non-string value yields `none` (the callers below treat that as
a violated internal invariant, mirroring the assertion in the source). -/
def tablenameOf (schemas : Schemas) (s : Json) : Option String :=
  match preferLocal schemas s "x-tablename" with
  | some (.str t) => some t
  | _ => none

/-- Modelled from the spec: `open_alchemy.helpers.schema.inherits` is not
under src.  A schema inherits iff it declares `x-inherits` as a string naming
a parent or as the boolean true (spec section 4.2). -/
def inheritsB (schemas : Schemas) (s : Json) : Bool :=
  match peekValue schemas s "x-inherits" with
  | some (.str _) => true
  | some (.bool b) => b
  | _ => false

/-- Modelled from the spec: the constructable test of
`open_alchemy.schemas.helpers.iterate` is not under src.  A schema is
constructable iff after resolving `$ref`/`allOf` it declares `type: object`
and maps to a table: it carries an effective `x-tablename` or inherits one
(spec sections 4.2 and its glossary). -/
def constructable (schemas : Schemas) (s : Json) : Bool :=
  match peekValue schemas s "type" with
  | some (.str "object") =>
    inheritsB schemas s || (peekValue schemas s "x-tablename").isSome
  | _ => false

/-- Modelled from the spec: `open_alchemy.helpers.inheritance.calculate_type`
is not under src.  Single-table inheritance is distinguished by the child
declaring no distinct tablename of its own (spec glossary), so its effective
tablename is the parent's. -/
def singleTableType (s : Json) : Bool :=
  (localKey s "x-tablename").isNone

/-- Embedding of `_is_single_table_inheritance` of
src/open_alchemy/schemas/validation/unique_tablename.py: the schema inherits
and the calculated inheritance type is single-table. -/
def isSingleTableInheritance (schemas : Schemas) (s : Json) : Bool :=
  inheritsB schemas s && singleTableType s

/-- The Result named tuple of the validation package: whether the check
passed and, if not, the reason. -/
structure Result where
  valid : Bool
  reason : Option String
deriving DecidableEq

/-- The constructable schemas of a collection, in insertion order. -/
def constructables (schemas : Schemas) : List (String × Json) :=
  schemas.filter (fun p => constructable schemas p.2)

/-- The schemas the unique-tablename check iterates: constructable schemas
that do not use single table inheritance. -/
def utEntries (schemas : Schemas) : List (String × Json) :=
  (constructables schemas).filter (fun p => !isSingleTableInheritance schemas p.2)

/-- The duplicate-tablename reason built by the check (the f-string of
src/open_alchemy/schemas/validation/unique_tablename.py, lines 71 to 74). -/
def dupReason (tablename name seenOnSchema : String) : String :=
  "duplicate \"x-tablename\" value " ++ tablename ++ " defined on the schema "
    ++ name ++ ", already defined on the schema " ++ seenOnSchema

/-- Dictionary lookup in the seen-tablenames record (tablename to owning
schema name). -/
def lookupSeen (k : String) : List (String × String) → Option String
  | [] => none
  | (k', v) :: rest => if k = k' then some v else lookupSeen k rest

/-- The loop of `check` of
src/open_alchemy/schemas/validation/unique_tablename.py: walk the filtered
schemas recording tablenames; on a tablename already recorded return the
invalid result naming both schemas.  `none` models the assertion failure on a
schema without a tablename (`assert tablename is not None`). -/
def utLoop (schemas : Schemas) :
    List (String × Json) → List (String × String) → Option Result
  | [], _ => some ⟨true, none⟩
  | (name, s) :: rest, seen =>
    match tablenameOf schemas s with
    | none => none
    | some tablename =>
      match lookupSeen tablename seen with
      | some seenOnSchema =>
        some ⟨false, some (dupReason tablename name seenOnSchema)⟩
      | none => utLoop schemas rest ((tablename, name) :: seen)

/-- Embedding of `check` of
src/open_alchemy/schemas/validation/unique_tablename.py. -/
def uniqueTablenameCheck (schemas : Schemas) : Option Result :=
  utLoop schemas (utEntries schemas) []

/-! The full many-to-many relationship check.  Its module
(open_alchemy/schemas/validation/relationship/full) is not under src; only
its test suite is.  The definitions below are modelled from the spec
(section 4.4) and conform to every fixture of
src/tests/open_alchemy/schemas/validation/relationship/full/test_many_to_many.py,
as the `relMMCheck_fixtures` theorem below records. -/
/-- The reason produced when an `x-tablename` value is present but not a
string (fixture text of the many-to-many tests). -/
def xTablenameMalformedMsg : String :=
  "malformed schema :: The x-tablename property must be of type string. "

/-- Modelled from the spec: gate 1 to 3 of the relationship checks (spec
section 4.4).  Read a schema's effective `x-tablename`: absent fails with
the prefixed must-define reason, non-string fails with the malformed-value
reason. -/
def getTablenameGate (schemas : Schemas) (s : Json) (who : String) :
    Except String String :=
  match peekValue schemas s "x-tablename" with
  | some (.str t) => .ok t
  | some _ => .error xTablenameMalformedMsg
  | none => .error (who ++ "schema must define x-tablename")

/-- The resolved properties of a schema (empty when absent). -/
def propertiesOf (schemas : Schemas) (s : Json) : List (String × Json) :=
  match peekValue schemas s "properties" with
  | some (.obj l) => l
  | _ => []

/-- Whether a property schema declares `x-primary-key: true` after
resolution. -/
def isPrimaryKeyProp (schemas : Schemas) (p : String × Json) : Bool :=
  match peekValue schemas p.2 "x-primary-key" with
  | some (.bool true) => true
  | _ => false

/-- First primary-key property without a resolvable `type`, with the reason
the check reports for it. -/
def pkTypeFailure (schemas : Schemas) (who : String) :
    List (String × Json) → Option String
  | [] => none
  | (n, s) :: rest =>
    match peekValue schemas s "type" with
    | some _ => pkTypeFailure schemas who rest
    | none =>
      some (who ++ (n ++ " property :: malformed schema :: "
        ++ "Every property requires a type. "))

/-- The primary-key properties of a schema. -/
def pksOf (schemas : Schemas) (s : Json) : List (String × Json) :=
  (propertiesOf schemas s).filter (isPrimaryKeyProp schemas)

/-- Modelled from the spec: gates 4 and 5 of the many-to-many check (spec
section 4.4).  The schema must have exactly one primary-key property and
each primary-key property must carry a type. -/
def pkGate (schemas : Schemas) (s : Json) (who : String) : Except String Unit :=
  if (pksOf schemas s).isEmpty then
    .error (who ++ "schema must have a primary key")
  else
    match pkTypeFailure schemas who (pksOf schemas s) with
    | some msg => .error msg
    | none =>
      if (pksOf schemas s).length > 1 then
        .error (who ++ ("many-to-many relationships currently only support "
          ++ "single primary key schemas"))
      else .ok ()

/-- Resolve the referenced schema of an array-of-ref property schema. -/
def resolveItemsRef (schemas : Schemas) (propertySchema : Json) : Option Json :=
  match localKey propertySchema "items" with
  | some items =>
    match localKey items "$ref" with
    | some (.str r) =>
      match refName r with
      | some n => lookupKey n schemas
      | none => none
    | _ => none
  | none => none

/-- Modelled from the spec: gate 6 of the many-to-many check (spec section
4.4) requires a consistently declared `x-secondary` on the relationship; the
referenced schema declares it and a source declaration, when present, must
match.  The spec does not fix a reason text for a violation, so a violation
is modelled as the defensive `none`. -/
def secondaryGate (schemas : Schemas) (sourceSchema refSchema : Json) :
    Option Unit :=
  match peekValue schemas refSchema "x-secondary" with
  | some (.str sec) =>
    match peekValue schemas sourceSchema "x-secondary" with
    | none => some ()
    | some (.str s') => if s' = sec then some () else none
    | some _ => none
  | _ => none

/-- Modelled from the spec: `check` of the full many-to-many relationship
validation (spec section 4.4), the ordered gate sequence with short-circuit
on the first failing gate.  `none` models the defensive errors (unresolvable
reference, malformed secondary declaration) that no valid collection
produces. -/
def relMMCheck (schemas : Schemas) (parentSchema : Json)
    (_propertyName : String) (propertySchema : Json) : Option Result :=
  match getTablenameGate schemas parentSchema "source schema :: " with
  | .error r => some ⟨false, some r⟩
  | .ok _ =>
    match resolveItemsRef schemas propertySchema with
    | none => none
    | some refSchema =>
      match getTablenameGate schemas refSchema "referenced schema :: " with
      | .error r => some ⟨false, some r⟩
      | .ok _ =>
        match pkGate schemas parentSchema "source schema :: " with
        | .error r => some ⟨false, some r⟩
        | .ok _ =>
          match pkGate schemas refSchema "referenced schema :: " with
          | .error r => some ⟨false, some r⟩
          | .ok _ =>
            match secondaryGate schemas parentSchema refSchema with
            | none => none
            | some _ => some ⟨true, none⟩

/-- The property schema every many-to-many test fixture uses. -/
def mmPropSchema : Json :=
  .obj [("type", .str "array"),
        ("items", .obj [("$ref", .str "#/components/schemas/RefSchema")])]

/-- The fully valid referenced schema of the many-to-many test fixtures. -/
def refSchemaValid : Json :=
  .obj [("x-tablename", .str "ref_schema"),
        ("x-secondary", .str "schema_ref_schema"),
        ("properties", .obj
          [("id", .obj [("type", .str "integer"), ("x-primary-key", .bool true)])])]

/-- A fully valid many-to-many source schema declaring its tablename, a
single typed primary key and the matching secondary table. -/
def mmSourceValid : Json :=
  .obj [("x-tablename", .str "schema"),
        ("x-secondary", .str "schema_ref_schema"),
        ("properties", .obj
          [("id", .obj [("type", .str "integer"), ("x-primary-key", .bool true)])])]

/-- Boolean prefix test on character lists. -/
def listBegins : List Char → List Char → Bool
  | [], _ => true
  | _ :: _, [] => false
  | a :: as, b :: bs => a == b && listBegins as bs

/-- Whether the string `s` begins with the string `p`. -/
def beginsWith (p s : String) : Bool := listBegins p.data s.data

/-- The error taxonomy of `open_alchemy.exceptions` (spec section 7), one
constructor per error kind, each carrying its message. -/
inductive OAError where
  | malformedExtensionProperty (msg : String)
  | malformedSchema (msg : String)
  | malformedRelationship (msg : String)
  | malformedModelDictionary (msg : String)
  | schemaNotFound (msg : String)
  | typeMissing (msg : String)
  | modelAttribute (msg : String)
deriving DecidableEq

instance {ε α : Type} [DecidableEq ε] [DecidableEq α] :
    DecidableEq (Except ε α) := fun a b =>
  match a, b with
  | .ok x, .ok y =>
    if h : x = y then isTrue (by rw [h]) else isFalse (by intro hc; cases hc; exact h rfl)
  | .error x, .error y =>
    if h : x = y then isTrue (by rw [h]) else isFalse (by intro hc; cases hc; exact h rfl)
  | .ok _, .error _ => isFalse (by intro hc; cases hc)
  | .error _, .ok _ => isFalse (by intro hc; cases hc)

/-- Whether a computation failed with a MalformedRelationshipError. -/
def isMalformedRelationshipError {α : Type} : Except OAError α → Bool
  | .error (.malformedRelationship _) => true
  | _ => false

/-- Whether a computation failed with a MalformedSchemaError. -/
def isMalformedSchemaError {α : Type} : Except OAError α → Bool
  | .error (.malformedSchema _) => true
  | _ => false

/-! The foreign-key helper of the object-reference column factory
(open_alchemy/column_factory/object_ref/foreign_key.py) is not under src;
only its test suite is.  `check_required` and `gather_artifacts` below are
modelled from the spec (section 4.3) with the behavior fixed by the tests of
src/tests/open_alchemy/column_factory/object_ref/test_foreign_key.py: a
present-but-mismatched candidate property raises MalformedRelationshipError
(the tests "no type", "wrong type", "no x-foreign-key" and
"wrong x-foreign-key" all expect the raise). -/
/-- Modelled from the spec: whether the candidate foreign-key property
matches the declared foreign-key spec exactly, on both `type` and
`x-foreign-key` (candidate values resolved through `$ref`/`allOf`). -/
def fkExactMatch (schemas : Schemas) (fk_spec propS : Json) : Bool :=
  match localKey fk_spec "type", peekValue schemas propS "type" with
  | some t1, some t2 =>
    if t1 = t2 then
      match localKey fk_spec "x-foreign-key", peekValue schemas propS "x-foreign-key" with
      | some f1, some f2 => f1 = f2
      | _, _ => false
    else false
  | _, _ => false

/-- Modelled from the spec: `check_required` of the foreign-key helper.
Returns True when the foreign-key logical property is absent from the model
schema's resolved properties, False when it is present and matches the spec
exactly, and raises MalformedRelationshipError for every malformed
combination (missing or mismatched `type` or `x-foreign-key` on either
side), as the repository's tests require. -/
def check_required (fk_spec : Json) (fk_logical_name : String)
    (model_schema : Json) (schemas : Schemas) : Except OAError Bool :=
  match lookupKey fk_logical_name (propertiesOf schemas model_schema) with
  | none => .ok true
  | some propS =>
    match localKey fk_spec "type", peekValue schemas propS "type" with
    | none, _ =>
      .error (.malformedRelationship "the foreign key spec does not define a type")
    | _, none =>
      .error (.malformedRelationship
        ("the " ++ fk_logical_name ++ " property does not define a type"))
    | some specType, some propType =>
      if specType = propType then
        match localKey fk_spec "x-foreign-key",
            peekValue schemas propS "x-foreign-key" with
        | none, _ =>
          .error (.malformedRelationship
            "the foreign key spec does not define x-foreign-key")
        | _, none =>
          .error (.malformedRelationship
            ("the " ++ fk_logical_name ++ " property does not define x-foreign-key"))
        | some specFk, some propFk =>
          if specFk = propFk then .ok false
          else
            .error (.malformedRelationship
              ("the x-foreign-key value of the " ++ fk_logical_name
                ++ " property does not match the expected value"))
      else
        .error (.malformedRelationship
          ("the type of the " ++ fk_logical_name
            ++ " property does not match the foreign key spec"))

/-- The record returned by `gather_artifacts` for the foreign-key column:
the column type and the "table.column" foreign-key reference. -/
structure ColumnArtifacts where
  type : String
  foreign_key : String
deriving DecidableEq

/-- Modelled from the spec: `gather_artifacts` of the foreign-key helper.
Resolves the logical name "{tablename}_{column}" and artifacts holding the
target property's type and the "{tablename}.{column}" reference, raising
MalformedSchemaError when the schema lacks a tablename, lacks properties,
lacks the target column property or that property has no type (spec section
4.3 and the repository's tests). -/
def gather_artifacts (model_schema : Json) (schemas : Schemas)
    (fk_column : String) : Except OAError (String × ColumnArtifacts) :=
  match peekValue schemas model_schema "x-tablename" with
  | some (.str tablename) =>
    match peekValue schemas model_schema "properties" with
    | some (.obj props) =>
      match lookupKey fk_column props with
      | some fkProp =>
        match peekValue schemas fkProp "type" with
        | some (.str fkType) =>
          .ok (tablename ++ "_" ++ fk_column,
            ⟨fkType, tablename ++ "." ++ fk_column⟩)
        | _ =>
          .error (.malformedSchema
            ("the " ++ fk_column ++ " property of the schema does not define a type"))
      | none =>
        .error (.malformedSchema
          ("the schema does not have the " ++ fk_column
            ++ " property needed for the foreign key"))
    | _ => .error (.malformedSchema "the schema does not have properties")
  | _ => .error (.malformedSchema "the schema does not define x-tablename")

/-- The foreign-key spec of every `check_required` test of
src/tests/open_alchemy/column_factory/object_ref/test_foreign_key.py. -/
def fkSpecFixture : Json :=
  .obj [("type", .str "fk_type"), ("x-foreign-key", .str "ref_table.fk_column")]

/-- Candidate property matching the foreign-key spec exactly. -/
def fkPropMatch : Json :=
  .obj [("type", .str "fk_type"), ("x-foreign-key", .str "ref_table.fk_column")]

/-- Candidate property with the wrong type (test fixture "wrong type"). -/
def fkPropWrongType : Json :=
  .obj [("type", .str "not_fk_type"), ("x-foreign-key", .str "ref_table.fk_column")]

/-- Candidate property with the wrong foreign-key target (test fixture
"wrong x-foreign-key"). -/
def fkPropWrongTarget : Json :=
  .obj [("type", .str "fk_type"), ("x-foreign-key", .str "wrong_table.wrong_column")]

/-- Model schema without the foreign-key logical property. -/
def msAbsentFixture : Json := .obj [("properties", .obj [])]

/-- Model schema holding the exactly matching candidate property. -/
def msMatchFixture : Json :=
  .obj [("properties", .obj [("ref_table_fk_column", fkPropMatch)])]

/-- Model schema holding the wrong-type candidate property. -/
def msWrongTypeFixture : Json :=
  .obj [("properties", .obj [("ref_table_fk_column", fkPropWrongType)])]

/-- Model schema holding the wrong-target candidate property. -/
def msWrongTargetFixture : Json :=
  .obj [("properties", .obj [("ref_table_fk_column", fkPropWrongTarget)])]

/-- Escape a character as Python json.dumps does for the quote and the
backslash (the characters appearing in this development's data). -/
def escList : List Char → List Char
  | [] => []
  | c :: rest =>
    (if c = '"' then ['\\', '"']
     else if c = '\\' then ['\\', '\\']
     else [c]) ++ escList rest

/-- Decimal digits of a natural number (fuel-bounded). -/
def natDigits : Nat → Nat → List Char
  | 0, _ => []
  | _ + 1, 0 => []
  | fuel + 1, n => natDigits fuel (n / 10) ++ [Char.ofNat (48 + n % 10)]

/-- Decimal rendering of a natural number. -/
def natStr (n : Nat) : String :=
  if n = 0 then "0" else String.mk (natDigits (n + 1) n)

/-- Decimal rendering of an integer. -/
def intStr : Int → String
  | .ofNat n => natStr n
  | .negSucc n => "-" ++ natStr (n + 1)

mutual

/-- Model of Python json.dumps with its default separators ", " and ": ". -/
def jsonDumps : Json → String
  | .null => "null"
  | .bool true => "true"
  | .bool false => "false"
  | .int n => intStr n
  | .str s => "\"" ++ String.mk (escList s.data) ++ "\""
  | .arr xs => "[" ++ jsonDumpsList xs ++ "]"
  | .obj kvs => "\x7b" ++ jsonDumpsObj kvs ++ "\x7d"

/-- Comma-separated dump of a JSON array's members. -/
def jsonDumpsList : List Json → String
  | [] => ""
  | [x] => jsonDumps x
  | x :: rest => jsonDumps x ++ ", " ++ jsonDumpsList rest

/-- Comma-separated dump of a JSON object's key-value pairs. -/
def jsonDumpsObj : List (String × Json) → String
  | [] => ""
  | [(k, v)] =>
    "\"" ++ String.mk (escList k.data) ++ "\": " ++ jsonDumps v
  | (k, v) :: rest =>
    "\"" ++ String.mk (escList k.data) ++ "\": " ++ jsonDumps v ++ ", "
      ++ jsonDumpsObj rest

end

/-- Modelled from the spec: the static extension-property schema table of
src/open_alchemy/helpers/get_ext_prop/extension-schemas.json, which is not
under src.  One fixed validation schema per extension property, with the
types the spec's data model names (section 3): string tablenames, foreign
keys, secondary tables and dereferenced names, boolean primary keys,
string-or-boolean `x-inherits`. -/
def EXTENSION_SCHEMAS : Schemas :=
  [("x-tablename", .obj [("type", .str "string")]),
   ("x-primary-key", .obj [("type", .str "boolean")]),
   ("x-foreign-key", .obj [("type", .str "string")]),
   ("x-secondary", .obj [("type", .str "string")]),
   ("x-de-$ref", .obj [("type", .str "string")]),
   ("x-inherits", .obj [("oneOf", .arr
     [.obj [("type", .str "string")], .obj [("type", .str "boolean")]])])]

/-- Modelled from the spec: the JSON-Schema validation primitive, which the
spec treats as a black box (section 1).  Supports the fragment the bundled
schemas use: `type` for the scalar kinds plus object and array, `properties`
with per-key sub-schemas, `required`, and `oneOf`.  Fuel bounds schema
nesting. -/
def validateJsonF : Nat → Json → Json → Bool
  | 0, _, _ => false
  | fuel + 1, schema, value =>
    match schema with
    | .obj fields =>
      (match lookupKey "type" fields with
       | some (.str "string") => (match value with | .str _ => true | _ => false)
       | some (.str "boolean") => (match value with | .bool _ => true | _ => false)
       | some (.str "integer") => (match value with | .int _ => true | _ => false)
       | some (.str "number") => (match value with | .int _ => true | _ => false)
       | some (.str "object") => (match value with | .obj _ => true | _ => false)
       | some (.str "array") => (match value with | .arr _ => true | _ => false)
       | some _ => false
       | none => true) &&
      (match lookupKey "properties" fields, value with
       | some (.obj propSchemas), .obj kvs =>
         kvs.all (fun kv =>
           match lookupKey kv.1 propSchemas with
           | some ps => validateJsonF fuel ps kv.2
           | none => true)
       | _, _ => true) &&
      (match lookupKey "required" fields, value with
       | some (.arr reqs), .obj kvs =>
         reqs.all (fun r =>
           match r with
           | .str rn => (lookupKey rn kvs).isSome
           | _ => false)
       | _, _ => true) &&
      (match lookupKey "oneOf" fields with
       | some (.arr subs) =>
         (subs.filter (fun sub => validateJsonF fuel sub value)).length = 1
       | some _ => false
       | none => true)
    | _ => false

/-- The validation primitive at ample fuel for every schema in this
development. -/
def jsValidate (schema value : Json) : Bool := validateJsonF 8 schema value

/-- The message of MalformedExtensionPropertyError (the f-string of
src/open_alchemy/helpers/get_ext_prop/__init__.py, lines 46 to 51),
reporting the property name, the expected schema and the offending value. -/
def extPropErrMsg (name : String) (schema value : Json) : String :=
  "The value of the " ++ jsonDumps (.str name)
    ++ " extension property is not valid. "
    ++ "The expected schema is " ++ jsonDumps schema ++ ". "
    ++ "The given value is " ++ jsonDumps value ++ "."

/-- Embedding of `get_ext_prop` of
src/open_alchemy/helpers/get_ext_prop/__init__.py.  An absent property (or
an explicit null, which Python's `dict.get` also returns as None) yields
None; a present value is validated against the property's fixed schema and
returned, or rejected with MalformedExtensionPropertyError.  An extension
property missing from the bundled table would make the Python validator
raise a SchemaError; that defensive path is modelled as a MalformedSchema
failure. -/
def get_ext_prop (source : List (String × Json)) (name : String) :
    Except OAError (Option Json) :=
  match lookupKey name source with
  | none => .ok none
  | some .null => .ok none
  | some value =>
    match lookupKey name EXTENSION_SCHEMAS with
    | none => .error (.malformedSchema ("no schema for the extension property " ++ name))
    | some schema =>
      if jsValidate schema value then .ok (some value)
      else .error (.malformedExtensionProperty (extPropErrMsg name schema value))

/-! Embedding of the model construction and serialization base of
src/open_alchemy/utility_base/__init__.py.  A model class is its recorded
`_schema`; a constructed instance is its attribute store, since the model
constructor `cls(**init_dict)` sets exactly the passed attributes and
`getattr(instance, name, None)` reads them back with None as default.  The
conversion helpers `helpers.oa_to_py_type.convert` and `to_dict.convert`
and the jsonschema facade are not under src and are modelled from the spec:
for the plain (non-object, non-array) values in scope both conversions pass
the value through, and object or array properties, whose construction
delegates to the global model registry (`facades.models`, outside this
core), are modelled as defensive failures.  Inheriting models likewise
resolve their parent through the registry and are modelled as a defensive
ModelAttribute failure; the claims below quantify over non-inheriting
models only. -/
/-- A model class: its recorded schema (`_schema` of UtilityBase). -/
structure ModelClass where
  schema : Json
deriving DecidableEq

/-- Embedding of `UtilityBase.get_properties`: the `properties` value of the
model schema, failing with MalformedSchemaError when the schema has none.  A
present non-object value, on which the Python code would fail when iterating
it, is modelled with the same failure. -/
def get_properties (m : ModelClass) : Except OAError (List (String × Json)) :=
  match localKey m.schema "properties" with
  | some (.obj props) => .ok props
  | some _ => .error (.malformedSchema "The model schema does not have any properties.")
  | none => .error (.malformedSchema "The model schema does not have any properties.")

/-- Modelled from the spec: `helpers.oa_to_py_type.convert`, not under src;
for the plain values in scope it passes the value through. -/
def oaToPyConvert (value : Json) (_type _format : Option Json) : Json := value

/-- Modelled from the spec: `to_dict.convert` of the utility base, not under
src; for the plain values in scope serialization passes the value
through. -/
def toDictConvert (_spec : Json) (value : Json) : Json := value

/-- Embedding of `getattr(instance, name, None)` on an instance's attribute
store. -/
def getattrJ (attrs : List (String × Json)) (name : String) : Json :=
  match lookupKey name attrs with
  | some v => v
  | none => .null

/-- The loop of `UtilityBase.construct_from_dict_init` (lines 137 to 196 of
src/open_alchemy/utility_base/__init__.py): for each passed parameter in
order, find its property spec (unknown parameters fail), reject readOnly
parameters, require a type, and convert plain values; object and array
parameters delegate to the model registry, modelled as defensive
failures. -/
def buildInit (schema : Json) (props : List (String × Json)) :
    List (String × Json) → Except OAError (List (String × Json))
  | [] => .ok []
  | (name, value) :: rest =>
    match lookupKey name props with
    | none =>
      .error (.malformedModelDictionary
        ("A parameter was passed in that is not a property in the model schema. "
          ++ "The parameter is " ++ name ++ ". The model schema is "
          ++ jsonDumps schema ++ "."))
    | some spec =>
      if localKey spec "readOnly" = some (.bool true) then
        .error (.malformedModelDictionary
          ("A parameter was passed in that is marked as readOnly in the schema. "
            ++ "The parameter is " ++ name ++ ". The model schema is "
            ++ jsonDumps schema ++ "."))
      else
        match localKey spec "type" with
        | none =>
          .error (.typeMissing
            ("The schema for the " ++ name ++ " property does not have a type."))
        | some t =>
          if t = .str "object" then
            .error (.schemaNotFound
              "object properties resolve their model through the registry")
          else if t = .str "array" then
            match localKey spec "items" with
            | none =>
              .error (.malformedSchema
                ("To construct array parameters the schema for the property must "
                  ++ "include the items property. The property is " ++ name ++ "."))
            | some _ =>
              .error (.schemaNotFound
                "array item properties resolve their model through the registry")
          else
            match buildInit schema props rest with
            | .error e => .error e
            | .ok acc =>
              .ok ((name, oaToPyConvert value (some t) (localKey spec "format"))
                :: acc)

/-- Embedding of `UtilityBase.construct_from_dict_init`: validate the passed
dictionary against the model schema, then assemble the construction
dictionary. -/
def construct_from_dict_init (m : ModelClass) (kwargs : List (String × Json)) :
    Except OAError (List (String × Json)) :=
  if jsValidate m.schema (.obj kwargs) then
    match get_properties m with
    | .error e => .error e
    | .ok props => buildInit m.schema props kwargs
  else
    .error (.malformedModelDictionary
      ("The dictionary passed to from_dict is not a valid instance of the "
        ++ "model schema. The expected schema is " ++ jsonDumps m.schema
        ++ ". The given value is " ++ jsonDumps (.obj kwargs) ++ "."))

/-- Embedding of `UtilityBase.from_dict`: construct the instance (its
attribute store) from a dictionary.  The inheriting branch resolves the
parent through the model registry, outside this core. -/
def from_dict (m : ModelClass) (kwargs : List (String × Json)) :
    Except OAError (List (String × Json)) :=
  if inheritsB [] m.schema then
    .error (.modelAttribute
      "inheriting models resolve their parent through the model registry")
  else
    construct_from_dict_init m kwargs

/-- The dictionary `instance_to_dict` builds: one entry per schema property,
in schema order, converting the instance's attribute (None when absent). -/
def idictOf (attrs props : List (String × Json)) : List (String × Json) :=
  props.map (fun p => (p.1, toDictConvert p.2 (getattrJ attrs p.1)))

/-- Embedding of `UtilityBase.instance_to_dict` (lines 273 to 284 of
src/open_alchemy/utility_base/__init__.py): collect every schema property's
converted value off the instance. -/
def instance_to_dict (m : ModelClass) (attrs : List (String × Json)) :
    Except OAError (List (String × Json)) :=
  match get_properties m with
  | .error e => .error e
  | .ok props => .ok (idictOf attrs props)

/-- Embedding of `UtilityBase.to_dict`: serialize an instance; inheriting
models merge the parent dictionary, resolved through the registry outside
this core. -/
def to_dict (m : ModelClass) (attrs : List (String × Json)) :
    Except OAError (List (String × Json)) :=
  if inheritsB [] m.schema then
    .error (.modelAttribute
      "inheriting models resolve their parent through the model registry")
  else
    instance_to_dict m attrs

/-- The round-trip counterexample model: two optional plain properties. -/
def rtModel : ModelClass :=
  ⟨.obj [("type", .str "object"),
    ("properties", .obj [("id", .obj [("type", .str "integer")]),
      ("name", .obj [("type", .str "string")])])]⟩

/-- A dictionary satisfying the counterexample model's schema that omits the
optional `name` property. -/
def rtDict : List (String × Json) := [("id", .int 1)]

theorem nodup_keys_eq {α : Type} {l : List (String × α)} {k : String} {v v' : α}
    (hnd : (l.map Prod.fst).Nodup) (h : (k, v) ∈ l) (h' : (k, v') ∈ l) : v = v' := by
  induction l with
  | nil => cases h
  | cons p rest ih =>
    simp only [List.map_cons, List.nodup_cons] at hnd
    rcases List.mem_cons.mp h with h0 | h0 <;>
      rcases List.mem_cons.mp h' with h1 | h1
    · rw [← h0] at h1; exact (Prod.mk.injEq _ _ _ _ ▸ h1).2.symm ▸ rfl
    · exact absurd (List.mem_map.mpr ⟨(k, v'), h1, by rw [← h0]⟩) hnd.1
    · exact absurd (List.mem_map.mpr ⟨(k, v), h0, by rw [← h1]⟩) hnd.1
    · exact ih hnd.2 h0 h1

theorem utLoop_dup (schemas : Schemas) :
    ∀ (l : List (String × Json)) (seen : List (String × String)),
    (∀ p ∈ l, (tablenameOf schemas p.2).isSome) →
    ((∃ p ∈ l, ∃ t, tablenameOf schemas p.2 = some t ∧ (lookupSeen t seen).isSome)
      ∨ (∃ i j pi pj t, i < j ∧ l.get? i = some pi ∧ l.get? j = some pj ∧
          tablenameOf schemas pi.2 = some t ∧ tablenameOf schemas pj.2 = some t)) →
    ∃ t n1 n2 k2 p2,
      utLoop schemas l seen = some ⟨false, some (dupReason t n2 n1)⟩ ∧
      l.get? k2 = some p2 ∧ p2.1 = n2 ∧ tablenameOf schemas p2.2 = some t ∧
      (lookupSeen t seen = some n1 ∨
        (lookupSeen t seen = none ∧ ∃ k1 p1, k1 < k2 ∧ l.get? k1 = some p1 ∧
          p1.1 = n1 ∧ tablenameOf schemas p1.2 = some t ∧
          ∀ k p, k < k1 → l.get? k = some p →
            tablenameOf schemas p.2 ≠ some t)) := by
  intro l
  induction l with
  | nil =>
    intro seen _ hcol
    rcases hcol with ⟨p, hp, _⟩ | ⟨i, j, pi, pj, t, _, hgi, _⟩
    · cases hp
    · simp at hgi
  | cons hd rest ih =>
    intro seen hdef hcol
    obtain ⟨name, s⟩ := hd
    obtain ⟨t0, ht0⟩ := Option.isSome_iff_exists.mp (hdef (name, s) (.head _))
    by_cases hseen : (lookupSeen t0 seen).isSome
    · obtain ⟨m, hm⟩ := Option.isSome_iff_exists.mp hseen
      refine ⟨t0, m, name, 0, (name, s), ?_, rfl, rfl, ht0, Or.inl hm⟩
      simp [utLoop, ht0, hm]
    · have hnone : lookupSeen t0 seen = none := Option.not_isSome_iff_eq_none.mp hseen
      have hstep : utLoop schemas ((name, s) :: rest) seen
          = utLoop schemas rest ((t0, name) :: seen) := by
        simp [utLoop, ht0, hnone]
      have hdef' : ∀ p ∈ rest, (tablenameOf schemas p.2).isSome :=
        fun p hp => hdef p (.tail _ hp)
      have hcol' : (∃ p ∈ rest, ∃ t, tablenameOf schemas p.2 = some t ∧
            (lookupSeen t ((t0, name) :: seen)).isSome)
          ∨ (∃ i j pi pj t, i < j ∧ rest.get? i = some pi ∧ rest.get? j = some pj ∧
              tablenameOf schemas pi.2 = some t ∧ tablenameOf schemas pj.2 = some t) := by
        rcases hcol with ⟨p, hp, t, ht, hts⟩ | ⟨i, j, pi, pj, t, hij, hgi, hgj, hti, htj⟩
        · rcases List.mem_cons.mp hp with h0 | h0
          · rw [h0] at ht; rw [ht0] at ht
            cases ht
            exact absurd hts hseen
          · refine Or.inl ⟨p, h0, t, ht, ?_⟩
            by_cases hteq : t = t0
            · subst hteq; simp [lookupSeen]
            · simpa [lookupSeen, hteq] using hts
        · cases i with
          | zero =>
            cases j with
            | zero => omega
            | succ j' =>
              simp only [List.get?_cons_zero, Option.some.injEq] at hgi
              rw [← hgi] at hti
              rw [ht0] at hti
              cases hti
              refine Or.inl ⟨pj, List.get?_mem (by simpa using hgj), t0, htj, ?_⟩
              simp [lookupSeen]
          | succ i' =>
            cases j with
            | zero => omega
            | succ j' =>
              exact Or.inr ⟨i', j', pi, pj, t, by omega, by simpa using hgi,
                by simpa using hgj, hti, htj⟩
      obtain ⟨t, n1, n2, k2, p2, hloop, hget, hn2, ht, hdisj⟩ :=
        ih ((t0, name) :: seen) hdef' hcol'
      refine ⟨t, n1, n2, k2 + 1, p2, by rw [hstep]; exact hloop, by simpa using hget,
        hn2, ht, ?_⟩
      rcases hdisj with hlk | ⟨hlk, k1, p1, hk12, hg1, hn1, ht1, hfirst⟩
      · by_cases hteq : t = t0
        · subst hteq
          have hlk' : name = n1 := by simpa [lookupSeen] using hlk
          refine Or.inr ⟨hnone, 0, (name, s), by omega, rfl, hlk', ht0, ?_⟩
          intro k p hk _
          omega
        · refine Or.inl ?_
          simpa [lookupSeen, hteq] using hlk
      · have hteq : t ≠ t0 := by
          intro h
          subst h
          simp [lookupSeen] at hlk
        have hlk' : lookupSeen t seen = none := by
          simpa [lookupSeen, hteq] using hlk
        refine Or.inr ⟨hlk', k1 + 1, p1, by omega, by simpa using hg1, hn1, ht1, ?_⟩
        intro k p hk hg
        cases k with
        | zero =>
          simp only [List.get?_cons_zero, Option.some.injEq] at hg
          rw [← hg, ht0]
          intro h
          cases h
          exact hteq rfl
        | succ k' =>
          exact hfirst k' p (by omega) (by simpa using hg)

theorem utLoop_valid (schemas : Schemas) :
    ∀ (l : List (String × Json)) (seen : List (String × String)),
    (∀ p ∈ l, (tablenameOf schemas p.2).isSome) →
    (l.map (fun p => tablenameOf schemas p.2)).Nodup →
    (∀ p ∈ l, ∀ t, tablenameOf schemas p.2 = some t → lookupSeen t seen = none) →
    utLoop schemas l seen = some ⟨true, none⟩ := by
  intro l
  induction l with
  | nil => intro seen _ _ _; rfl
  | cons hd rest ih =>
    intro seen hdef hnd hseen
    obtain ⟨name, s⟩ := hd
    obtain ⟨t0, ht0⟩ := Option.isSome_iff_exists.mp (hdef (name, s) (.head _))
    have h0 : lookupSeen t0 seen = none := hseen (name, s) (.head _) t0 ht0
    have hnd' : (some t0 :: rest.map (fun p => tablenameOf schemas p.2)).Nodup := by
      simpa only [List.map_cons, ht0] using hnd
    have hne : some t0 ∉ rest.map (fun p => tablenameOf schemas p.2) :=
      (List.nodup_cons.mp hnd').1
    have hrec := ih ((t0, name) :: seen)
      (fun p hp => hdef p (.tail _ hp))
      (List.nodup_cons.mp hnd').2
      (by
        intro p hp t ht
        have hteq : t ≠ t0 := by
          intro h
          subst h
          exact hne (List.mem_map.mpr ⟨p, hp, ht⟩)
        simpa [lookupSeen, hteq] using hseen p (.tail _ hp) t ht)
    simp [utLoop, ht0, h0, hrec]

/-- C1: for every Schemas collection in which two constructable,
non-single-table-inheritance schemas (two positions of the iterated list)
carry the same effective prefer-local `x-tablename`, the unique-tablename
check returns an invalid Result whose reason is the duplicate-tablename
message naming the schema being examined (`n2`) and the schema on which the
tablename was first recorded (`n1`: an earlier entry with that tablename and
no entry before it carries it). -/
theorem unique_tablename_duplicate_invalid
    (schemas : Schemas) (i j : Nat) (pi pj : String × Json) (t : String)
    (hdef : ∀ p ∈ utEntries schemas, (tablenameOf schemas p.2).isSome)
    (hij : i < j)
    (hgi : (utEntries schemas).get? i = some pi)
    (hgj : (utEntries schemas).get? j = some pj)
    (hti : tablenameOf schemas pi.2 = some t)
    (htj : tablenameOf schemas pj.2 = some t) :
    ∃ tn n1 n2 k1 k2 p1 p2,
      uniqueTablenameCheck schemas = some ⟨false, some (dupReason tn n2 n1)⟩ ∧
      k1 < k2 ∧
      (utEntries schemas).get? k1 = some p1 ∧ p1.1 = n1 ∧
        tablenameOf schemas p1.2 = some tn ∧
      (utEntries schemas).get? k2 = some p2 ∧ p2.1 = n2 ∧
        tablenameOf schemas p2.2 = some tn ∧
      (∀ k p, k < k1 → (utEntries schemas).get? k = some p →
        tablenameOf schemas p.2 ≠ some tn) := by
  obtain ⟨tn, n1, n2, k2, p2, hloop, hget, hn2, ht, hdisj⟩ :=
    utLoop_dup schemas (utEntries schemas) [] hdef
      (Or.inr ⟨i, j, pi, pj, t, hij, hgi, hgj, hti, htj⟩)
  rcases hdisj with hlk | ⟨_, k1, p1, hk12, hg1, hn1, ht1, hfirst⟩
  · simp [lookupSeen] at hlk
  · exact ⟨tn, n1, n2, k1, k2, p1, p2, hloop, hk12, hg1, hn1, ht1, hget, hn2, ht,
      hfirst⟩

/-- C1 witness: two plain schemas sharing the tablename `t`; the check
reports the duplicate naming both. -/
theorem unique_tablename_duplicate_invalid_witness :
    ∃ tn n1 n2 k1 k2 p1 p2,
      uniqueTablenameCheck
        [("A", .obj [("type", .str "object"), ("x-tablename", .str "t")]),
         ("B", .obj [("type", .str "object"), ("x-tablename", .str "t")])]
        = some ⟨false, some (dupReason tn n2 n1)⟩ ∧
      k1 < k2 ∧
      (utEntries
        [("A", .obj [("type", .str "object"), ("x-tablename", .str "t")]),
         ("B", .obj [("type", .str "object"), ("x-tablename", .str "t")])]).get? k1
          = some p1 ∧ p1.1 = n1 ∧
        tablenameOf
          [("A", .obj [("type", .str "object"), ("x-tablename", .str "t")]),
           ("B", .obj [("type", .str "object"), ("x-tablename", .str "t")])] p1.2
          = some tn ∧
      (utEntries
        [("A", .obj [("type", .str "object"), ("x-tablename", .str "t")]),
         ("B", .obj [("type", .str "object"), ("x-tablename", .str "t")])]).get? k2
          = some p2 ∧ p2.1 = n2 ∧
        tablenameOf
          [("A", .obj [("type", .str "object"), ("x-tablename", .str "t")]),
           ("B", .obj [("type", .str "object"), ("x-tablename", .str "t")])] p2.2
          = some tn ∧
      (∀ k p, k < k1 →
        (utEntries
          [("A", .obj [("type", .str "object"), ("x-tablename", .str "t")]),
           ("B", .obj [("type", .str "object"), ("x-tablename", .str "t")])]).get? k
            = some p →
        tablenameOf
          [("A", .obj [("type", .str "object"), ("x-tablename", .str "t")]),
           ("B", .obj [("type", .str "object"), ("x-tablename", .str "t")])] p.2
          ≠ some tn) :=
  unique_tablename_duplicate_invalid _ 0 1
    ("A", .obj [("type", .str "object"), ("x-tablename", .str "t")])
    ("B", .obj [("type", .str "object"), ("x-tablename", .str "t")])
    "t" (by decide) (by decide) (by decide) (by decide) (by decide) (by decide)

/-- C8: a constructable schema using single table inheritance is skipped by
the unique-tablename check: its name is absent from the iterated list, and
when the iterated (constructable, non-single-table-inheritance) schemas all
have defined, pairwise distinct tablenames the check is valid even though the
single-table-inheritance schema shares its tablename with its parent. -/
theorem sti_schema_skipped
    (schemas : Schemas) (name : String) (s : Json)
    (hnames : (schemas.map Prod.fst).Nodup)
    (hmem : (name, s) ∈ schemas)
    (_hcon : constructable schemas s = true)
    (hsti : isSingleTableInheritance schemas s = true) :
    name ∉ (utEntries schemas).map Prod.fst ∧
    ((∀ p ∈ utEntries schemas, (tablenameOf schemas p.2).isSome) →
      ((utEntries schemas).map (fun p => tablenameOf schemas p.2)).Nodup →
      uniqueTablenameCheck schemas = some ⟨true, none⟩) := by
  constructor
  · intro hin
    obtain ⟨p, hp, hp1⟩ := List.mem_map.mp hin
    rw [utEntries, List.mem_filter, constructables, List.mem_filter] at hp
    have hps : p ∈ schemas := hp.1.1
    have hflt : (!isSingleTableInheritance schemas p.2) = true := hp.2
    obtain ⟨pn, ps⟩ := p
    have : ps = s := nodup_keys_eq hnames (hp1 ▸ hps) hmem
    rw [this] at hflt
    simp [hsti] at hflt
  · intro hdef hnd
    exact utLoop_valid schemas (utEntries schemas) [] hdef hnd
      (fun _ _ _ _ => rfl)

set_option maxRecDepth 8000 in
/-- C8 witness: a parent owning the table `shared` and a single-table
inheritance child referencing it; the child is skipped and the check is
valid. -/
theorem sti_schema_skipped_witness :
    "Child" ∉ (utEntries
      [("Parent", .obj [("type", .str "object"), ("x-tablename", .str "shared")]),
       ("Child", .obj [("x-inherits", .bool true),
          ("$ref", .str "#/components/schemas/Parent")])]).map Prod.fst ∧
    uniqueTablenameCheck
      [("Parent", .obj [("type", .str "object"), ("x-tablename", .str "shared")]),
       ("Child", .obj [("x-inherits", .bool true),
          ("$ref", .str "#/components/schemas/Parent")])] = some ⟨true, none⟩ := by
  have h := sti_schema_skipped
    [("Parent", .obj [("type", .str "object"), ("x-tablename", .str "shared")]),
     ("Child", .obj [("x-inherits", .bool true),
        ("$ref", .str "#/components/schemas/Parent")])]
    "Child"
    (.obj [("x-inherits", .bool true), ("$ref", .str "#/components/schemas/Parent")])
    (by decide) (.tail _ (.head _)) (by decide) (by decide)
  exact ⟨h.1, h.2 (by decide) (by decide)⟩

/-- Conformance of the modelled many-to-many check with every fixture of
src/tests/open_alchemy/schemas/validation/relationship/full/test_many_to_many.py,
in the order of the TESTS list. -/
theorem relMMCheck_fixtures :
    relMMCheck [("RefSchema", refSchemaValid)]
      (.obj [("properties", .obj
        [("id", .obj [("type", .str "integer"), ("x-primary-key", .bool true)])])])
      "ref_schemas" mmPropSchema
      = some ⟨false, some "source schema :: schema must define x-tablename"⟩ ∧
    relMMCheck [("RefSchema", refSchemaValid)]
      (.obj [("x-tablename", .bool true), ("properties", .obj
        [("id", .obj [("type", .str "integer"), ("x-primary-key", .bool true)])])])
      "ref_schemas" mmPropSchema
      = some ⟨false, some xTablenameMalformedMsg⟩ ∧
    relMMCheck
      [("RefSchema", .obj [("x-secondary", .str "schema_ref_schema"),
        ("properties", .obj
          [("id", .obj [("type", .str "integer"), ("x-primary-key", .bool true)])])])]
      (.obj [("x-tablename", .str "schema"), ("properties", .obj
        [("id", .obj [("type", .str "integer"), ("x-primary-key", .bool true)])])])
      "ref_schemas" mmPropSchema
      = some ⟨false, some "referenced schema :: schema must define x-tablename"⟩ ∧
    relMMCheck
      [("RefSchema", .obj [("x-secondary", .str "schema_ref_schema"),
        ("x-tablename", .bool true),
        ("properties", .obj
          [("id", .obj [("type", .str "integer"), ("x-primary-key", .bool true)])])])]
      (.obj [("x-tablename", .str "schema"), ("properties", .obj
        [("id", .obj [("type", .str "integer"), ("x-primary-key", .bool true)])])])
      "ref_schemas" mmPropSchema
      = some ⟨false, some xTablenameMalformedMsg⟩ ∧
    relMMCheck [("RefSchema", refSchemaValid)]
      (.obj [("x-tablename", .str "schema"), ("properties", .obj
        [("id", .obj [("type", .str "integer")])])])
      "ref_schemas" mmPropSchema
      = some ⟨false, some "source schema :: schema must have a primary key"⟩ ∧
    relMMCheck [("RefSchema", refSchemaValid)]
      (.obj [("x-tablename", .str "schema"), ("properties", .obj
        [("id", .obj [("x-primary-key", .bool true)])])])
      "ref_schemas" mmPropSchema
      = some ⟨false, some ("source schema :: id property :: malformed schema :: "
          ++ "Every property requires a type. ")⟩ ∧
    relMMCheck [("RefSchema", refSchemaValid)]
      (.obj [("x-tablename", .str "schema"), ("properties", .obj
        [("id", .obj [("type", .str "integer"), ("x-primary-key", .bool true)]),
         ("name", .obj [("type", .str "string"), ("x-primary-key", .bool true)])])])
      "ref_schemas" mmPropSchema
      = some ⟨false, some ("source schema :: many-to-many relationships currently "
          ++ "only support single primary key schemas")⟩ ∧
    relMMCheck
      [("RefSchema", .obj [("x-tablename", .str "ref_schema"),
        ("x-secondary", .str "schema_ref_schema"),
        ("properties", .obj [("id", .obj [("type", .str "integer")])])])]
      (.obj [("x-tablename", .str "schema"), ("properties", .obj
        [("id", .obj [("type", .str "integer"), ("x-primary-key", .bool true)])])])
      "ref_schemas" mmPropSchema
      = some ⟨false, some "referenced schema :: schema must have a primary key"⟩ ∧
    relMMCheck
      [("RefSchema", .obj [("x-tablename", .str "ref_schema"),
        ("x-secondary", .str "schema_ref_schema"),
        ("properties", .obj [("id", .obj [("x-primary-key", .bool true)])])])]
      (.obj [("x-tablename", .str "schema"), ("properties", .obj
        [("id", .obj [("type", .str "integer"), ("x-primary-key", .bool true)])])])
      "ref_schemas" mmPropSchema
      = some ⟨false, some ("referenced schema :: id property :: malformed schema :: "
          ++ "Every property requires a type. ")⟩ ∧
    relMMCheck
      [("RefSchema", .obj [("x-tablename", .str "ref_schema"),
        ("x-secondary", .str "schema_ref_schema"),
        ("properties", .obj
          [("id", .obj [("type", .str "integer"), ("x-primary-key", .bool true)]),
           ("name", .obj [("type", .str "string"), ("x-primary-key", .bool true)])])])]
      (.obj [("x-tablename", .str "schema"), ("properties", .obj
        [("id", .obj [("type", .str "integer"), ("x-primary-key", .bool true)])])])
      "ref_schemas" mmPropSchema
      = some ⟨false, some ("referenced schema :: many-to-many relationships "
          ++ "currently only support single primary key schemas")⟩ ∧
    relMMCheck [("RefSchema", refSchemaValid)]
      (.obj [("x-tablename", .str "schema"), ("properties", .obj
        [("id", .obj [("type", .str "integer"), ("x-primary-key", .bool true)])])])
      "ref_schemas" mmPropSchema
      = some ⟨true, none⟩ := by
  refine ⟨?_, ?_, ?_, ?_, ?_, ?_, ?_, ?_, ?_, ?_, ?_⟩ <;> decide

/-- C2: the many-to-many check returns the invalid result with reason
"source schema :: schema must define x-tablename" when the source schema
lacks `x-tablename`, and the valid result `(True, None)` for a fully valid
pair of schemas each declaring a string `x-tablename`, exactly one typed
primary-key property and the matching `x-secondary`. -/
theorem relMM_check_results :
    relMMCheck [("RefSchema", refSchemaValid)]
      (.obj [("properties", .obj
        [("id", .obj [("type", .str "integer"), ("x-primary-key", .bool true)])])])
      "ref_schemas" mmPropSchema
      = some ⟨false, some "source schema :: schema must define x-tablename"⟩ ∧
    relMMCheck [("RefSchema", refSchemaValid)] mmSourceValid
      "ref_schemas" mmPropSchema
      = some ⟨true, none⟩ := by
  exact ⟨by decide, by decide⟩

theorem listBegins_append (p r : List Char) : listBegins p (p ++ r) = true := by
  induction p with
  | nil => rfl
  | cons a as ih => simp [listBegins, ih]

theorem beginsWith_append (p r : String) : beginsWith p (p ++ r) = true := by
  show listBegins p.data (p ++ r).data = true
  have h : (p ++ r).data = p.data ++ r.data := by cases p; cases r; rfl
  rw [h]
  exact listBegins_append _ _

theorem getTablenameGate_error {schemas : Schemas} {s : Json} {who e : String}
    (h : getTablenameGate schemas s who = .error e) :
    e = xTablenameMalformedMsg ∨ ∃ m, e = who ++ m := by
  unfold getTablenameGate at h
  split at h
  · cases h
  · exact Or.inl (Except.error.inj h).symm
  · exact Or.inr ⟨_, (Except.error.inj h).symm⟩

theorem pkTypeFailure_who {schemas : Schemas} {who : String} :
    ∀ (l : List (String × Json)) (msg : String),
    pkTypeFailure schemas who l = some msg → ∃ m, msg = who ++ m := by
  intro l
  induction l with
  | nil => intro msg h; cases h
  | cons p rest ih =>
    intro msg h
    obtain ⟨n, s⟩ := p
    unfold pkTypeFailure at h
    split at h
    · exact ih msg h
    · exact ⟨_, (Option.some.inj h).symm⟩

theorem pkGate_error {schemas : Schemas} {s : Json} {who e : String}
    (h : pkGate schemas s who = .error e) : ∃ m, e = who ++ m := by
  unfold pkGate at h
  split at h
  · exact ⟨_, (Except.error.inj h).symm⟩
  · split at h
    · rename_i msg hpk
      obtain ⟨m, hm⟩ := pkTypeFailure_who _ msg hpk
      exact ⟨m, (Except.error.inj h).symm.trans hm⟩
    · split at h
      · exact ⟨_, (Except.error.inj h).symm⟩
      · cases h

/-- C9 amended: every invalid result of the many-to-many check has a reason
beginning with "source schema :: " or "referenced schema :: ", except the
malformed extension-property reasons (non-string `x-tablename`), which begin
with "malformed schema :: ". -/
theorem relMM_reason_prefixed (schemas : Schemas) (parent : Json)
    (pname : String) (pschema : Json) (r : Result) (reason : String)
    (hr : relMMCheck schemas parent pname pschema = some r)
    (hreason : r.reason = some reason) :
    beginsWith "source schema :: " reason = true ∨
    beginsWith "referenced schema :: " reason = true ∨
    beginsWith "malformed schema :: " reason = true := by
  have ofSrc : ∀ m : String, reason = "source schema :: " ++ m →
      beginsWith "source schema :: " reason = true := fun m hm => by
    rw [hm]; exact beginsWith_append _ _
  have ofRef : ∀ m : String, reason = "referenced schema :: " ++ m →
      beginsWith "referenced schema :: " reason = true := fun m hm => by
    rw [hm]; exact beginsWith_append _ _
  have ofMal : reason = xTablenameMalformedMsg →
      beginsWith "malformed schema :: " reason = true := fun hm => by
    rw [hm]; decide
  have reasonOf : ∀ e : String, some ⟨false, some e⟩ = some r → e = reason := by
    intro e he
    have hre : r = ⟨false, some e⟩ := (Option.some.inj he).symm
    rw [hre] at hreason
    exact Option.some.inj hreason
  unfold relMMCheck at hr
  split at hr
  · rename_i e heq
    have hee : e = reason := reasonOf e hr
    rcases getTablenameGate_error heq with hm | ⟨m, hm⟩
    · exact Or.inr (Or.inr (ofMal (by rw [← hee, hm])))
    · exact Or.inl (ofSrc m (by rw [← hee, hm]))
  · split at hr
    · cases hr
    · rename_i refSchema heq2
      split at hr
      · rename_i e heq3
        have hee : e = reason := reasonOf e hr
        rcases getTablenameGate_error heq3 with hm | ⟨m, hm⟩
        · exact Or.inr (Or.inr (ofMal (by rw [← hee, hm])))
        · exact Or.inr (Or.inl (ofRef m (by rw [← hee, hm])))
      · split at hr
        · rename_i e heq4
          have hee : e = reason := reasonOf e hr
          obtain ⟨m, hm⟩ := pkGate_error heq4
          exact Or.inl (ofSrc m (by rw [← hee, hm]))
        · split at hr
          · rename_i e heq5
            have hee : e = reason := reasonOf e hr
            obtain ⟨m, hm⟩ := pkGate_error heq5
            exact Or.inr (Or.inl (ofRef m (by rw [← hee, hm])))
          · split at hr
            · cases hr
            · have hre : r = ⟨true, none⟩ := (Option.some.inj hr).symm
              rw [hre] at hreason
              cases hreason

/-- C9 amended witness: on the fixture whose source schema lacks
`x-tablename` the reason carries the "source schema :: " prefix. -/
theorem relMM_reason_prefixed_witness :
    beginsWith "source schema :: "
        "source schema :: schema must define x-tablename" = true ∨
    beginsWith "referenced schema :: "
        "source schema :: schema must define x-tablename" = true ∨
    beginsWith "malformed schema :: "
        "source schema :: schema must define x-tablename" = true :=
  relMM_reason_prefixed [("RefSchema", refSchemaValid)]
    (.obj [("properties", .obj
      [("id", .obj [("type", .str "integer"), ("x-primary-key", .bool true)])])])
    "ref_schemas" mmPropSchema
    ⟨false, some "source schema :: schema must define x-tablename"⟩
    "source schema :: schema must define x-tablename"
    (by decide) rfl

/-- Conformance of the modelled `check_required` with every fixture of
test_check_required_invalid_schema and test_check_required of
src/tests/open_alchemy/column_factory/object_ref/test_foreign_key.py. -/
theorem check_required_fixtures :
    isMalformedRelationshipError (check_required fkSpecFixture
      "ref_table_fk_column"
      (.obj [("properties", .obj [("ref_table_fk_column",
        .obj [("x-foreign-key", .str "ref_table.fk_column")])])]) []) = true ∧
    isMalformedRelationshipError (check_required fkSpecFixture
      "ref_table_fk_column"
      (.obj [("properties", .obj [("ref_table_fk_column",
        .obj [("type", .str "not_fk_type"),
              ("x-foreign-key", .str "ref_table.fk_column")])])]) []) = true ∧
    isMalformedRelationshipError (check_required fkSpecFixture
      "ref_table_fk_column"
      (.obj [("properties", .obj [("ref_table_fk_column",
        .obj [("type", .str "fk_type")])])]) []) = true ∧
    isMalformedRelationshipError (check_required fkSpecFixture
      "ref_table_fk_column"
      (.obj [("properties", .obj [("ref_table_fk_column",
        .obj [("type", .str "fk_type"),
              ("x-foreign-key", .str "wrong_table.wrong_column")])])]) []) = true ∧
    check_required fkSpecFixture "ref_table_fk_column"
      (.obj [("properties", .obj [])]) [] = .ok true ∧
    check_required fkSpecFixture "ref_table_fk_column"
      (.obj [("properties", .obj [("ref_table_fk_column",
        .obj [("type", .str "fk_type"),
              ("x-foreign-key", .str "ref_table.fk_column")])])]) [] = .ok false ∧
    check_required fkSpecFixture "ref_table_fk_column"
      (.obj [("properties", .obj [("ref_table_fk_column",
        .obj [("$ref", .str "#/components/schemas/FkSchema")])])])
      [("FkSchema", .obj [("type", .str "fk_type"),
        ("x-foreign-key", .str "ref_table.fk_column")])] = .ok false ∧
    check_required fkSpecFixture "ref_table_fk_column"
      (.obj [("properties", .obj [("ref_table_fk_column",
        .obj [("allOf", .arr [.obj [("type", .str "fk_type"),
          ("x-foreign-key", .str "ref_table.fk_column")]])])])]) [] = .ok false := by
  refine ⟨?_, ?_, ?_, ?_, ?_, ?_, ?_, ?_⟩ <;> decide

theorem check_required_behavior (fk_spec : Json) (name : String) (ms : Json)
    (schemas : Schemas) :
    (lookupKey name (propertiesOf schemas ms) = none →
      check_required fk_spec name ms schemas = .ok true) ∧
    (∀ propS, lookupKey name (propertiesOf schemas ms) = some propS →
      (fkExactMatch schemas fk_spec propS = true →
        check_required fk_spec name ms schemas = .ok false) ∧
      (fkExactMatch schemas fk_spec propS = false →
        isMalformedRelationshipError (check_required fk_spec name ms schemas)
          = true)) := by
  refine ⟨fun h => by simp [check_required, h], fun propS hp => ⟨?_, ?_⟩⟩
  · intro hm
    cases hT1 : localKey fk_spec "type" with
    | none => simp [fkExactMatch, hT1] at hm
    | some t1 =>
      cases hT2 : peekValue schemas propS "type" with
      | none => simp [fkExactMatch, hT1, hT2] at hm
      | some t2 =>
        by_cases hte : t1 = t2
        · subst hte
          cases hF1 : localKey fk_spec "x-foreign-key" with
          | none => simp [fkExactMatch, hT1, hT2, hF1] at hm
          | some f1 =>
            cases hF2 : peekValue schemas propS "x-foreign-key" with
            | none => simp [fkExactMatch, hT1, hT2, hF1, hF2] at hm
            | some f2 =>
              by_cases hfe : f1 = f2
              · subst hfe
                simp [check_required, hp, hT1, hT2, hF1, hF2]
              · simp [fkExactMatch, hT1, hT2, hF1, hF2, hfe] at hm
        · simp [fkExactMatch, hT1, hT2, hte] at hm
  · intro hm
    cases hT1 : localKey fk_spec "type" with
    | none => simp [check_required, isMalformedRelationshipError, hp, hT1]
    | some t1 =>
      cases hT2 : peekValue schemas propS "type" with
      | none => simp [check_required, isMalformedRelationshipError, hp, hT1, hT2]
      | some t2 =>
        by_cases hte : t1 = t2
        · subst hte
          cases hF1 : localKey fk_spec "x-foreign-key" with
          | none =>
            simp [check_required, isMalformedRelationshipError, hp, hT1, hT2, hF1]
          | some f1 =>
            cases hF2 : peekValue schemas propS "x-foreign-key" with
            | none =>
              simp [check_required, isMalformedRelationshipError, hp, hT1, hT2,
                hF1, hF2]
            | some f2 =>
              by_cases hfe : f1 = f2
              · subst hfe
                simp [fkExactMatch, hT1, hT2, hF1, hF2] at hm
              · simp [check_required, isMalformedRelationshipError, hp, hT1, hT2,
                  hF1, hF2, hfe]
        · simp [check_required, isMalformedRelationshipError, hp, hT1, hT2, hte]

/-- C3: `check_required` returns True when the foreign-key logical property
is absent from the model's resolved properties, returns False when it is
present and its resolved `type` and `x-foreign-key` both exactly match the
declared spec, and fails with MalformedRelationshipError whenever the
present candidate does not match exactly (missing or mismatched `type` or
`x-foreign-key`). -/
theorem check_required_spec (fk_spec : Json) (name : String) (ms : Json)
    (schemas : Schemas) :
    (lookupKey name (propertiesOf schemas ms) = none →
      check_required fk_spec name ms schemas = .ok true) ∧
    (∀ propS, lookupKey name (propertiesOf schemas ms) = some propS →
      (fkExactMatch schemas fk_spec propS = true →
        check_required fk_spec name ms schemas = .ok false) ∧
      (fkExactMatch schemas fk_spec propS = false →
        isMalformedRelationshipError (check_required fk_spec name ms schemas)
          = true)) :=
  check_required_behavior fk_spec name ms schemas

/-- C3 witness: the three behaviors of `check_required` at the repository's
test fixtures (absent property, exact match, wrong type). -/
theorem check_required_spec_witness :
    check_required fkSpecFixture "ref_table_fk_column" msAbsentFixture []
      = .ok true ∧
    check_required fkSpecFixture "ref_table_fk_column" msMatchFixture []
      = .ok false ∧
    isMalformedRelationshipError
      (check_required fkSpecFixture "ref_table_fk_column" msWrongTypeFixture [])
      = true := by
  refine ⟨?_, ?_, ?_⟩
  · exact (check_required_spec fkSpecFixture "ref_table_fk_column"
      msAbsentFixture []).1 (by decide)
  · have h := (check_required_spec fkSpecFixture "ref_table_fk_column"
      msMatchFixture []).2 fkPropMatch (by decide)
    exact h.1 (by decide)
  · have h := (check_required_spec fkSpecFixture "ref_table_fk_column"
      msWrongTypeFixture []).2 fkPropWrongType (by decide)
    exact h.2 (by decide)

/-- C4 counterexample: for the "wrong type" fixture of the repository's
tests the candidate property is present but its type does not match, and
`check_required` raises MalformedRelationshipError instead of returning
True. -/
theorem check_required_mismatch_cex :
    isMalformedRelationshipError
      (check_required fkSpecFixture "ref_table_fk_column" msWrongTypeFixture [])
      = true ∧
    check_required fkSpecFixture "ref_table_fk_column" msWrongTypeFixture []
      ≠ .ok true := by
  exact ⟨by decide, by decide⟩

/-- C4 amended: a present candidate foreign-key property whose resolved
`type` or `x-foreign-key` does not exactly match the declared spec is not
treated as still-required: `check_required` never returns True for it and
instead fails with MalformedRelationshipError. -/
theorem check_required_mismatch_raises (fk_spec : Json) (name : String)
    (ms : Json) (schemas : Schemas) (propS : Json)
    (hp : lookupKey name (propertiesOf schemas ms) = some propS)
    (hm : fkExactMatch schemas fk_spec propS = false) :
    check_required fk_spec name ms schemas ≠ .ok true ∧
    isMalformedRelationshipError (check_required fk_spec name ms schemas)
      = true := by
  have herr := ((check_required_behavior fk_spec name ms schemas).2 propS hp).2 hm
  refine ⟨?_, herr⟩
  intro hok
  rw [hok] at herr
  cases herr

/-- C4 amended witness: the "wrong x-foreign-key" fixture of the
repository's tests. -/
theorem check_required_mismatch_raises_witness :
    check_required fkSpecFixture "ref_table_fk_column" msWrongTargetFixture []
      ≠ .ok true ∧
    isMalformedRelationshipError
      (check_required fkSpecFixture "ref_table_fk_column" msWrongTargetFixture [])
      = true :=
  check_required_mismatch_raises fkSpecFixture "ref_table_fk_column"
    msWrongTargetFixture [] fkPropWrongTarget (by decide) (by decide)

/-- C7: `gather_artifacts` on the test schema returns the logical name
"table 1_fk" and artifacts with type "fkType" and foreign-key reference
"table 1.fk"; and it fails with MalformedSchemaError whenever the schema
lacks a tablename, lacks properties, lacks the target column property, or
that property has no type. -/
theorem gather_artifacts_spec :
    gather_artifacts
      (.obj [("x-tablename", .str "table 1"),
        ("properties", .obj [("id", .obj [("type", .str "idType")]),
          ("fk", .obj [("type", .str "fkType")])])]) [] "fk"
      = .ok ("table 1_fk", ⟨"fkType", "table 1.fk"⟩) ∧
    (∀ (ms : Json) (schemas : Schemas) (c : String),
      peekValue schemas ms "x-tablename" = none →
      isMalformedSchemaError (gather_artifacts ms schemas c) = true) ∧
    (∀ (ms : Json) (schemas : Schemas) (c t : String),
      peekValue schemas ms "x-tablename" = some (.str t) →
      peekValue schemas ms "properties" = none →
      isMalformedSchemaError (gather_artifacts ms schemas c) = true) ∧
    (∀ (ms : Json) (schemas : Schemas) (c t : String)
      (props : List (String × Json)),
      peekValue schemas ms "x-tablename" = some (.str t) →
      peekValue schemas ms "properties" = some (.obj props) →
      lookupKey c props = none →
      isMalformedSchemaError (gather_artifacts ms schemas c) = true) ∧
    (∀ (ms : Json) (schemas : Schemas) (c t : String)
      (props : List (String × Json)) (fkProp : Json),
      peekValue schemas ms "x-tablename" = some (.str t) →
      peekValue schemas ms "properties" = some (.obj props) →
      lookupKey c props = some fkProp →
      peekValue schemas fkProp "type" = none →
      isMalformedSchemaError (gather_artifacts ms schemas c) = true) := by
  refine ⟨by decide, ?_, ?_, ?_, ?_⟩
  · intro ms schemas c h1
    simp [gather_artifacts, isMalformedSchemaError, h1]
  · intro ms schemas c t h1 h2
    simp [gather_artifacts, isMalformedSchemaError, h1, h2]
  · intro ms schemas c t props h1 h2 h3
    simp [gather_artifacts, isMalformedSchemaError, h1, h2, h3]
  · intro ms schemas c t props fkProp h1 h2 h3 h4
    simp [gather_artifacts, isMalformedSchemaError, h1, h2, h3, h4]

/-- C7 witness: the five malformed-schema fixtures of
test_gather_artifacts_malformed_schema all fail with MalformedSchemaError
(the "custom foreign key property missing" and "id property no type"
fixtures exercise the last two conjuncts). -/
theorem gather_artifacts_spec_witness :
    isMalformedSchemaError (gather_artifacts
      (.obj [("properties", .obj [("id", .obj [])])]) [] "id") = true ∧
    isMalformedSchemaError (gather_artifacts
      (.obj [("x-tablename", .str "table 1")]) [] "id") = true ∧
    isMalformedSchemaError (gather_artifacts
      (.obj [("x-tablename", .str "table 1"), ("properties", .obj [])]) [] "id")
      = true ∧
    isMalformedSchemaError (gather_artifacts
      (.obj [("x-tablename", .str "table 1"),
        ("properties", .obj [("id", .obj [("type", .str "integer")])])])
      [] "column_1") = true ∧
    isMalformedSchemaError (gather_artifacts
      (.obj [("x-tablename", .str "table 1"),
        ("properties", .obj [("id", .obj [])])]) [] "id") = true := by
  refine ⟨?_, ?_, ?_, ?_, ?_⟩
  · exact gather_artifacts_spec.2.1
      (.obj [("properties", .obj [("id", .obj [])])]) [] "id" (by decide)
  · exact gather_artifacts_spec.2.2.1
      (.obj [("x-tablename", .str "table 1")]) [] "id" "table 1"
      (by decide) (by decide)
  · exact gather_artifacts_spec.2.2.2.1
      (.obj [("x-tablename", .str "table 1"), ("properties", .obj [])]) [] "id"
      "table 1" [] (by decide) (by decide) (by decide)
  · exact gather_artifacts_spec.2.2.2.1
      (.obj [("x-tablename", .str "table 1"),
        ("properties", .obj [("id", .obj [("type", .str "integer")])])])
      [] "column_1" "table 1" [("id", .obj [("type", .str "integer")])]
      (by decide) (by decide) (by decide)
  · exact gather_artifacts_spec.2.2.2.2
      (.obj [("x-tablename", .str "table 1"),
        ("properties", .obj [("id", .obj [])])]) [] "id" "table 1"
      [("id", .obj [])] (.obj [])
      (by decide) (by decide) (by decide) (by decide)

/-- C9 counterexample: on a source schema declaring `x-tablename: true` the
many-to-many check fails with the malformed-value reason, which does not
begin with "source schema :: " nor with "referenced schema :: ". -/
theorem relMM_reason_not_prefixed_cex :
    relMMCheck [("RefSchema", refSchemaValid)]
      (.obj [("x-tablename", .bool true), ("properties", .obj
        [("id", .obj [("type", .str "integer"), ("x-primary-key", .bool true)])])])
      "ref_schemas" mmPropSchema
      = some ⟨false, some xTablenameMalformedMsg⟩ ∧
    beginsWith "source schema :: " xTablenameMalformedMsg = false ∧
    beginsWith "referenced schema :: " xTablenameMalformedMsg = false := by
  exact ⟨by decide, by decide, by decide⟩

/-- C6: `get_ext_prop` returns None when the property is absent from the
source, returns the value when it satisfies the property's fixed validation
schema, and fails with MalformedExtensionPropertyError reporting the
property name, the expected schema and the offending value when it does
not. -/
theorem get_ext_prop_spec (source : List (String × Json)) (name : String) :
    (lookupKey name source = none → get_ext_prop source name = .ok none) ∧
    (∀ value schema, lookupKey name source = some value → value ≠ .null →
      lookupKey name EXTENSION_SCHEMAS = some schema →
      (jsValidate schema value = true →
        get_ext_prop source name = .ok (some value)) ∧
      (jsValidate schema value = false →
        get_ext_prop source name
          = .error (.malformedExtensionProperty (extPropErrMsg name schema value)))) := by
  refine ⟨fun h => by simp [get_ext_prop, h], ?_⟩
  intro value schema hv hne hs
  cases value with
  | null => exact absurd rfl hne
  | bool b =>
    exact ⟨fun hok => by simp [get_ext_prop, hv, hs, hok],
      fun hbad => by simp [get_ext_prop, hv, hs, hbad]⟩
  | int n =>
    exact ⟨fun hok => by simp [get_ext_prop, hv, hs, hok],
      fun hbad => by simp [get_ext_prop, hv, hs, hbad]⟩
  | str s =>
    exact ⟨fun hok => by simp [get_ext_prop, hv, hs, hok],
      fun hbad => by simp [get_ext_prop, hv, hs, hbad]⟩
  | arr xs =>
    exact ⟨fun hok => by simp [get_ext_prop, hv, hs, hok],
      fun hbad => by simp [get_ext_prop, hv, hs, hbad]⟩
  | obj kvs =>
    exact ⟨fun hok => by simp [get_ext_prop, hv, hs, hok],
      fun hbad => by simp [get_ext_prop, hv, hs, hbad]⟩

/-- C6 witness: an absent property yields None, a valid string tablename is
returned, and a boolean tablename is rejected with the diagnostic message
naming the property, its schema and the value. -/
theorem get_ext_prop_spec_witness :
    get_ext_prop [] "x-tablename" = .ok none ∧
    get_ext_prop [("x-tablename", .str "table 1")] "x-tablename"
      = .ok (some (.str "table 1")) ∧
    get_ext_prop [("x-tablename", .bool true)] "x-tablename"
      = .error (.malformedExtensionProperty
          (extPropErrMsg "x-tablename" (.obj [("type", .str "string")])
            (.bool true))) := by
  refine ⟨?_, ?_, ?_⟩
  · exact (get_ext_prop_spec [] "x-tablename").1 (by decide)
  · exact ((get_ext_prop_spec [("x-tablename", .str "table 1")] "x-tablename").2
      (.str "table 1") (.obj [("type", .str "string")])
      (by decide) (by decide) (by decide)).1 (by decide)
  · exact ((get_ext_prop_spec [("x-tablename", .bool true)] "x-tablename").2
      (.bool true) (.obj [("type", .str "string")])
      (by decide) (by decide) (by decide)).2 (by decide)

theorem idictOf_keys (attrs : List (String × Json)) :
    ∀ props : List (String × Json),
    (idictOf attrs props).map Prod.fst = props.map Prod.fst := by
  intro props
  induction props with
  | nil => rfl
  | cons p rest ih => simp only [idictOf, List.map_cons] at ih ⊢; rw [ih]

theorem lookupKey_idict (attrs : List (String × Json)) :
    ∀ (props : List (String × Json)) (name : String) (spec : Json),
    lookupKey name props = some spec →
    lookupKey name (idictOf attrs props)
      = some (toDictConvert spec (getattrJ attrs name)) := by
  intro props
  induction props with
  | nil => intro name spec h; cases h
  | cons p rest ih =>
    intro name spec h
    obtain ⟨k, v⟩ := p
    by_cases hk : name = k
    · subst hk
      have hv : v = spec := by simpa [lookupKey] using h
      subst hv
      simp [idictOf, lookupKey]
    · have h' : lookupKey name rest = some spec := by simpa [lookupKey, hk] using h
      simpa [idictOf, lookupKey, hk] using ih name spec h'

/-- C10: for every model class whose schema has properties,
`instance_to_dict` returns a dictionary whose keys are exactly the schema's
property names in schema order; a property with no attribute on the
instance is read as None, converted, and still included; and for
non-inheriting models `to_dict` is exactly `instance_to_dict`. -/
theorem instance_to_dict_keys (m : ModelClass) (attrs props : List (String × Json))
    (hprops : localKey m.schema "properties" = some (.obj props)) :
    instance_to_dict m attrs = .ok (idictOf attrs props) ∧
    (idictOf attrs props).map Prod.fst = props.map Prod.fst ∧
    (∀ name spec, lookupKey name props = some spec →
      lookupKey name attrs = none →
      lookupKey name (idictOf attrs props) = some (toDictConvert spec .null)) ∧
    (inheritsB [] m.schema = false → to_dict m attrs = instance_to_dict m attrs) := by
  refine ⟨by simp [instance_to_dict, get_properties, hprops],
    idictOf_keys attrs props, ?_, fun hinh => by simp [to_dict, hinh]⟩
  intro name spec hs ha
  rw [lookupKey_idict attrs props name spec hs]
  simp [getattrJ, ha]

/-- C10 witness: on the two-property model with only `id` set, the output
has exactly the keys `id` and `name`, the unset `name` is included as the
converted None, and `to_dict` agrees with `instance_to_dict`. -/
theorem instance_to_dict_keys_witness :
    instance_to_dict rtModel [("id", .int 1)]
      = .ok (idictOf [("id", .int 1)]
          [("id", .obj [("type", .str "integer")]),
           ("name", .obj [("type", .str "string")])]) ∧
    (idictOf [("id", .int 1)]
        [("id", .obj [("type", .str "integer")]),
         ("name", .obj [("type", .str "string")])]).map Prod.fst
      = [("id", Json.obj [("type", .str "integer")]),
         ("name", Json.obj [("type", .str "string")])].map Prod.fst ∧
    lookupKey "name" (idictOf [("id", .int 1)]
        [("id", .obj [("type", .str "integer")]),
         ("name", .obj [("type", .str "string")])])
      = some (toDictConvert (.obj [("type", .str "string")]) .null) ∧
    to_dict rtModel [("id", .int 1)] = instance_to_dict rtModel [("id", .int 1)] := by
  have h := instance_to_dict_keys rtModel [("id", .int 1)]
    [("id", .obj [("type", .str "integer")]),
     ("name", .obj [("type", .str "string")])] (by decide)
  exact ⟨h.1, h.2.1, h.2.2.1 "name" (.obj [("type", .str "string")])
    (by decide) (by decide), h.2.2.2 (by decide)⟩

/-- C5 counterexample: the dictionary `[("id", 1)]` satisfies the
counterexample model's schema (the `name` property is optional and not
read-only), yet serializing the constructed instance yields
`[("id", 1), ("name", null)]`, which is not the input dictionary. -/
theorem roundtrip_cex :
    jsValidate rtModel.schema (.obj rtDict) = true ∧
    from_dict rtModel rtDict = .ok [("id", .int 1)] ∧
    to_dict rtModel [("id", .int 1)] = .ok [("id", .int 1), ("name", .null)] ∧
    ([("id", Json.int 1), ("name", Json.null)] : List (String × Json)) ≠ rtDict := by
  exact ⟨by decide, by decide, by decide, by decide⟩

theorem lookupKey_of_mem_keys {k : String} :
    ∀ {l : List (String × Json)}, k ∈ l.map Prod.fst →
    ∃ v, lookupKey k l = some v := by
  intro l
  induction l with
  | nil => intro h; cases h
  | cons p rest ih =>
    intro h
    obtain ⟨pk, pv⟩ := p
    by_cases hk : k = pk
    · subst hk; exact ⟨pv, by simp [lookupKey]⟩
    · have : k ∈ rest.map Prod.fst := by
        rcases List.mem_cons.mp h with h0 | h0
        · exact absurd h0 hk
        · exact h0
      obtain ⟨v, hv⟩ := ih this
      exact ⟨v, by simpa [lookupKey, hk] using hv⟩

theorem buildInit_scalar (schema : Json) (props : List (String × Json)) :
    ∀ d : List (String × Json),
    (∀ name value, (name, value) ∈ d → ∃ spec,
      lookupKey name props = some spec ∧
      localKey spec "readOnly" ≠ some (.bool true) ∧
      ∃ t, localKey spec "type" = some t ∧ t ≠ .str "object" ∧ t ≠ .str "array") →
    buildInit schema props d = .ok d := by
  intro d
  induction d with
  | nil => intro _; rfl
  | cons p rest ih =>
    intro h
    obtain ⟨name, value⟩ := p
    obtain ⟨spec, hlook, hro, t, ht, hto, hta⟩ := h name value (.head _)
    have hrest := ih (fun n v hv => h n v (.tail _ hv))
    simp [buildInit, hlook, hro, ht, hto, hta, hrest, oaToPyConvert]

theorem idictOf_restore :
    ∀ (props d full : List (String × Json)),
    props.map Prod.fst = d.map Prod.fst →
    (∀ k, k ∈ d.map Prod.fst → lookupKey k full = lookupKey k d) →
    (d.map Prod.fst).Nodup →
    idictOf full props = d := by
  intro props
  induction props with
  | nil =>
    intro d full hk _ _
    cases d with
    | nil => rfl
    | cons q d' => simp at hk
  | cons p rest ih =>
    intro d full hk hfull hnd
    cases d with
    | nil => simp at hk
    | cons q d' =>
      obtain ⟨pk, ps⟩ := p
      obtain ⟨qk, qv⟩ := q
      simp only [List.map_cons, List.cons.injEq] at hk
      obtain ⟨hpq, hrest⟩ := hk
      subst hpq
      have hnd' : (pk :: d'.map Prod.fst).Nodup := by
        simpa only [List.map_cons] using hnd
      have hndq : pk ∉ d'.map Prod.fst ∧ (d'.map Prod.fst).Nodup :=
        List.nodup_cons.mp hnd'
      have hlook : lookupKey pk full = some qv := by
        rw [hfull pk (by simp)]
        simp [lookupKey]
      have htail : idictOf full rest = d' := by
        refine ih d' full hrest ?_ hndq.2
        intro k hkmem
        have hne : k ≠ pk := fun he => hndq.1 (he ▸ hkmem)
        rw [hfull k (by simp [hkmem])]
        simp [lookupKey, hne]
      simp [idictOf] at htail ⊢
      exact ⟨by simp [toDictConvert, getattrJ, hlook], htail⟩

/-- C5 amended: construction followed by serialization is the identity on
well-formed dictionaries that supply every schema property: for a
non-inheriting model whose plain-typed (non-object, non-array, non-readOnly)
properties are exactly the keys of `d`, with `d` valid for the schema,
`from_dict` succeeds and `to_dict` of the constructed instance returns `d`
itself.  (A dictionary omitting an optional property is re-serialized with
that property as null, so the identity needs full key coverage.) -/
theorem from_dict_to_dict_roundtrip (m : ModelClass)
    (props d : List (String × Json))
    (hprops : localKey m.schema "properties" = some (.obj props))
    (hinh : inheritsB [] m.schema = false)
    (hkeys : props.map Prod.fst = d.map Prod.fst)
    (hnd : (d.map Prod.fst).Nodup)
    (hval : jsValidate m.schema (.obj d) = true)
    (hspecs : ∀ name spec, lookupKey name props = some spec →
      localKey spec "readOnly" ≠ some (.bool true) ∧
      ∃ t, localKey spec "type" = some t ∧ t ≠ .str "object" ∧ t ≠ .str "array") :
    from_dict m d = .ok d ∧ to_dict m d = .ok d := by
  have hget : get_properties m = .ok props := by simp [get_properties, hprops]
  have hbuild : buildInit m.schema props d = .ok d := by
    refine buildInit_scalar m.schema props d ?_
    intro name value hv
    have hmem : name ∈ props.map Prod.fst := by
      rw [hkeys]
      exact List.mem_map.mpr ⟨(name, value), hv, rfl⟩
    obtain ⟨spec, hspec⟩ := lookupKey_of_mem_keys hmem
    obtain ⟨hro, t, ht, hto, hta⟩ := hspecs name spec hspec
    exact ⟨spec, hspec, hro, t, ht, hto, hta⟩
  refine ⟨?_, ?_⟩
  · simp [from_dict, hinh, construct_from_dict_init, hval, hget, hbuild]
  · have hid : idictOf d props = d :=
      idictOf_restore props d d hkeys (fun k _ => rfl) hnd
    simp [to_dict, hinh, instance_to_dict, hget, hid]

/-- C5 amended witness: the round trip is the identity on a dictionary
supplying both properties of the counterexample model. -/
theorem from_dict_to_dict_roundtrip_witness :
    from_dict rtModel [("id", .int 1), ("name", .str "n")]
      = .ok [("id", .int 1), ("name", .str "n")] ∧
    to_dict rtModel [("id", .int 1), ("name", .str "n")]
      = .ok [("id", .int 1), ("name", .str "n")] := by
  refine from_dict_to_dict_roundtrip rtModel
    [("id", .obj [("type", .str "integer")]),
     ("name", .obj [("type", .str "string")])]
    [("id", .int 1), ("name", .str "n")]
    (by decide) (by decide) (by decide) (by decide) (by decide) ?_
  intro name spec h
  by_cases h1 : name = "id"
  · subst h1
    have hs : Json.obj [("type", .str "integer")] = spec := by
      simpa [lookupKey] using h
    exact hs ▸ ⟨by decide, .str "integer", by decide, by decide, by decide⟩
  · by_cases h2 : name = "name"
    · subst h2
      have hs : Json.obj [("type", .str "string")] = spec := by
        simpa [lookupKey, h1] using h
      exact hs ▸ ⟨by decide, .str "string", by decide, by decide, by decide⟩
    · simp [lookupKey, h1, h2] at h

end OA
